import Mathlib

/-!
# doodooserver: `src/common/database.cpp`

A shallow embedding of the managed single-connection database layer
(`db::escapeString`, `db::detail::getState`, `ping_connection`,
`db::detail::timer`, `db::queryStr`) and the properties of it that the
specification states.

Modelling conventions.

* A `std::string` is a `String`; a C++ `char` is a `Char` (every character the
  code distinguishes is ASCII).
* The SQL driver, the clocks and the scheduler are external collaborators.  The
  driver and the clocks are an arbitrary deterministic machine over a hidden
  state `D` (record `Env`); every call the code makes to the driver is recorded
  in `World.calls`, every `AddTask` call in `World.tasks`, every log call in
  `World.log`.
* A C++ call ends in one of three ways (`Outcome`): it returns, a
  `std::exception` leaves it, or it dereferences a null `unique_ptr`
  (undefined behaviour, a fault that no `catch` handles).
* `settings::get` is a lookup in a record of values (`Settings`).
-/

namespace DooDooServer

namespace db

/-! ## `db::escapeString` -/

/-- Replacement map of `database.cpp` (lines 37-45), in source order. -/
def replacements : List (Char × List Char) :=
  [ ('\\', ['\\', '\\']),
    ('\x00', ['\\', '0']),
    ('\n', ['\\', 'n']),
    ('\r', ['\\', 'r']),
    ('\'', ['\\', '\'']),
    ('"', ['\\', '"']),
    ('\x1a', ['\\', 'Z']) ]

/-- Body of the `for` loop of `db::escapeString`: the characters still to be
read and the `escapedStr` built so far.  A null character leaves the loop. -/
def escapeLoop : List Char → List Char → List Char
  | [], escapedStr => escapedStr
  | c :: rest, escapedStr =>
    if c = '\x00' then escapedStr
    else
      match replacements.lookup c with
      | some second => escapeLoop rest (escapedStr ++ second)
      | none => escapeLoop rest (escapedStr ++ [c])

/-- Embedding of `db::escapeString` (lines 190-214). -/
def escapeString (str : String) : String :=
  String.mk (escapeLoop str.data [])

/-- Image of one character as the specification words it: the six characters
backslash, newline, carriage return, single quote, double quote and 0x1A go to
their two-character sequence, every other character to itself. -/
def escapeImage (c : Char) : List Char :=
  if c = '\\' then ['\\', '\\']
  else if c = '\n' then ['\\', 'n']
  else if c = '\r' then ['\\', 'r']
  else if c = '\'' then ['\\', '\'']
  else if c = '"' then ['\\', '"']
  else if c = '\x1a' then ['\\', 'Z']
  else [c]

/-- The part of a string before its first null character (all of it when it
has none). -/
def beforeNull (l : List Char) : List Char :=
  l.takeWhile (fun c => decide (c ≠ '\x00'))

/-- Length of the run of backslashes that ends a list of characters. -/
def trailingBackslashes (l : List Char) : Nat :=
  (l.reverse.takeWhile (fun c => decide (c = '\\'))).length

/-- A single or a double quote. -/
def isQuote (c : Char) : Prop := c = '\'' ∨ c = '"'

/-- Every quote of the list stands right after a maximal run of backslashes of
odd length. -/
def QuotesEscaped (out : List Char) : Prop :=
  ∀ pre q post, out = pre ++ q :: post → isQuote q → trailingBackslashes pre % 2 = 1

/-- None of the characters null, newline, carriage return, 0x1A occurs. -/
def NoRawControl (out : List Char) : Prop :=
  ∀ c ∈ out, c ≠ '\x00' ∧ c ≠ '\n' ∧ c ≠ '\r' ∧ c ≠ '\x1a'

/-- Reading a text that stands inside a quoted SQL literal, with backslash
escapes: `true` when a quote of the text ends the literal.  The flag says
whether the character before was an escaping backslash. -/
def literalEnds : Bool → List Char → Bool
  | _, [] => false
  | true, _ :: rest => literalEnds false rest
  | false, c :: rest =>
    if c = '\\' then literalEnds true rest
    else if c = '\'' ∨ c = '"' then true
    else literalEnds false rest

/-- Loop invariant of the escaping loop, on the text built so far: the text ends
in an even number of backslashes, its quotes are escaped and it holds no raw
control character. -/
def EscInv (out : List Char) : Prop :=
  trailingBackslashes out % 2 = 0 ∧ QuotesEscaped out ∧ NoRawControl out

/-- What a `const char*` taken from a `std::string` (`c_str()`, `data()`)
denotes: the text up to the first null character. -/
def cStr (s : String) : String :=
  String.mk (beforeNull s.data)

end db

/-! ## The world around the connection state -/

/-- How a C++ call ends: it returns a value, a `std::exception` with message
`what` leaves it, or it dereferences a null `unique_ptr` (undefined behaviour;
no `catch` clause handles it). -/
inductive Outcome (α : Type) where
  | ret (value : α)
  | threw (what : String)
  | nullDeref
  deriving DecidableEq, Repr

/-- Identity of a `sql::Connection` object. -/
abbrev Handle := Nat

/-- Identity of a `sql::Statement` object. -/
abbrev Stmt := Nat

/-- Identity of a `sql::ResultSet` object. -/
abbrev RSet := Nat

/-- Log sinks of `logging.h` used by `database.cpp`: `DebugSQL`, `ShowInfo`,
`ShowWarning`, `ShowError`. -/
inductive Severity where
  | debug
  | info
  | warning
  | error
  deriving DecidableEq, Repr

/-- One emitted log line. -/
structure LogLine where
  severity : Severity
  text : String
  deriving DecidableEq, Repr

/-- A call made to the SQL driver, with its arguments. -/
inductive DriverCall where
  | connect (url login passwd : String)
  | isValid (h : Handle)
  | reconnect (h : Handle)
  | setSchema (h : Handle) (schema : String)
  | createStatement (h : Handle)
  | executeQuery (stmt : Stmt) (sql : String)
  deriving DecidableEq, Repr

/-- Task kinds of `CTaskMgr` that `database.cpp` uses. -/
inductive TaskType where
  | TASK_INTERVAL
  deriving DecidableEq, Repr

/-- Callbacks that `database.cpp` hands to the scheduler. -/
inductive TaskFunc where
  | ping_connection
  deriving DecidableEq, Repr

/-- Arguments of one `CTaskMgr::AddTask` call: name, time of the first firing
(a `server_clock` time point, counted in seconds), kind, callback and interval
in seconds.  The data pointer is always `nullptr`. -/
structure CTask where
  name : String
  tick : Int
  type : TaskType
  func : TaskFunc
  interval : Nat
  deriving DecidableEq, Repr

/-- The external collaborators as a deterministic machine over a hidden state
`D`: the driver operations either return or throw (`Except.error`), and
`connect` never returns a null pointer.  `serverNow` reads `server_clock` in
seconds, `hiresNow` reads `hires_clock` in nanoseconds. -/
structure Env (D : Type) where
  isValid : Handle → D → Except String Bool × D
  reconnect : Handle → D → Except String Bool × D
  connect : String → String → String → D → Except String Handle × D
  setSchema : Handle → String → D → Except String Unit × D
  createStatement : Handle → D → Except String Stmt × D
  executeQuery : Stmt → String → D → Except String RSet × D
  serverNow : D → Int × D
  hiresNow : D → Int × D

/-- The values `settings::get` returns for the keys `database.cpp` reads
(`network.*` and `logging.*`). -/
structure Settings where
  SQL_LOGIN : String
  SQL_PASSWORD : String
  SQL_HOST : String
  SQL_PORT : Nat
  SQL_DATABASE : String
  SQL_SLOW_QUERY_LOG_ENABLE : Bool
  SQL_SLOW_QUERY_ERROR_TIME : Nat
  SQL_SLOW_QUERY_WARNING_TIME : Nat
  deriving DecidableEq, Repr

namespace db

namespace detail

/-- Embedding of `db::detail::State`: the owned connection, `none` for a null
`unique_ptr`. -/
structure State where
  connection : Option Handle
  deriving DecidableEq, Repr

/-- Embedding of `db::detail::ResultSetWrapper` as `queryStr` builds it: the
result set and the query text. -/
structure ResultSetWrapper where
  resultSet : RSet
  query : String
  deriving DecidableEq, Repr

end detail

end db

/-- Whether a driver call is a `connect`. -/
def isConnect : DriverCall → Bool
  | DriverCall.connect _ _ _ => true
  | _ => false

/-- Number of `connect` calls in a record of driver calls. -/
def connectCalls (cs : List DriverCall) : Nat :=
  cs.countP isConnect

/-- Everything a call can observe or change: the mutex-guarded `state` of
`database.cpp`, the hidden state of the collaborators, and the record of the
driver calls, `AddTask` calls and log lines made so far. -/
structure World (D : Type) where
  state : db.detail.State
  driver : D
  calls : List DriverCall
  tasks : List CTask
  log : List LogLine
  deriving DecidableEq

namespace World

variable {D : Type}

/-- Record a call to the driver and the hidden state it left. -/
def called (w : World D) (c : DriverCall) (d : D) : World D :=
  { w with driver := d, calls := w.calls ++ [c] }

/-- Append one line to the log. -/
def logged (w : World D) (sev : Severity) (text : String) : World D :=
  { w with log := w.log ++ [LogLine.mk sev text] }

/-- Assign `state.connection`. -/
def setConnection (w : World D) (c : Option Handle) : World D :=
  { w with state := db.detail.State.mk c }

end World

namespace db

namespace detail

variable {D : Type}

/-- First `state.write` of `db::detail::getState` (lines 83-88):
`state.connection != nullptr && (state.connection->isValid() ||
state.connection->reconnect())`.  No `try` encloses it. -/
def getStateReuse (env : Env D) (w : World D) : Outcome Bool × World D :=
  match w.state.connection with
  | none => (Outcome.ret false, w)
  | some h =>
    match env.isValid h w.driver with
    | (Except.error e, d1) => (Outcome.threw e, w.called (DriverCall.isValid h) d1)
    | (Except.ok true, d1) => (Outcome.ret true, w.called (DriverCall.isValid h) d1)
    | (Except.ok false, d1) =>
      let w1 := w.called (DriverCall.isValid h) d1
      match env.reconnect h d1 with
      | (Except.error e, d2) => (Outcome.threw e, w1.called (DriverCall.reconnect h) d2)
      | (Except.ok b, d2) => (Outcome.ret b, w1.called (DriverCall.reconnect h) d2)

/-- Second `state.write` of `db::detail::getState` (lines 96-118): connect with
the configured url and credentials, then set the schema; an exception from
either is logged and wipes the connection. -/
def getStateCreate (env : Env D) (cfg : Settings) (w : World D) : World D :=
  let login := cfg.SQL_LOGIN
  let passwd := cfg.SQL_PASSWORD
  let host := cfg.SQL_HOST
  let port := cfg.SQL_PORT
  let schema := cfg.SQL_DATABASE
  let url := "tcp://" ++ host ++ ":" ++ toString port
  let call := DriverCall.connect (cStr url) (cStr login) (cStr passwd)
  match env.connect (cStr url) (cStr login) (cStr passwd) w.driver with
  | (Except.error e, d1) => ((w.called call d1).logged Severity.error e).setConnection none
  | (Except.ok h, d1) =>
    let w1 := (w.called call d1).setConnection (some h)
    match env.setSchema h (cStr schema) d1 with
    | (Except.error e, d2) =>
      ((w1.called (DriverCall.setSchema h (cStr schema)) d2).logged Severity.error e).setConnection none
    | (Except.ok _, d2) => w1.called (DriverCall.setSchema h (cStr schema)) d2

/-- Keep-alive period in seconds computed at lines 123-134, in `uint32`
arithmetic. -/
def pingDuration : Nat :=
  let timeout : Nat := 7200
  let timeout := max timeout 60
  let reserve : Nat := 30
  (timeout + reserve) % 2 ^ 32

/-- Embedding of `db::detail::getState` (lines 75-139).  The returned reference
to the guarded state is the `state` field of the resulting world. -/
def getState (env : Env D) (cfg : Settings) (w : World D) : Outcome Unit × World D :=
  match getStateReuse env w with
  | (Outcome.threw e, w1) => (Outcome.threw e, w1)
  | (Outcome.nullDeref, w1) => (Outcome.nullDeref, w1)
  | (Outcome.ret true, w1) => (Outcome.ret (), w1)
  | (Outcome.ret false, w1) =>
    let w2 := getStateCreate env cfg w1
    let duration := pingDuration
    match env.serverNow w2.driver with
    | (now, d) =>
      (Outcome.ret (),
        { w2 with
          driver := d,
          tasks := w2.tasks ++
            [CTask.mk "ping database connection" (now + duration) TaskType.TASK_INTERVAL
              TaskFunc.ping_connection duration] })

/-- Duration between two `hires_clock` readings as
`duration_cast<milliseconds>` gives it (rounding toward zero). -/
def elapsedMs (start stop : Int) : Int :=
  Int.tdiv (stop - start) 1000000

/-- The text `fmt::format("SQL query took {}ms: {}", duration, query)` of lines
153 and 157. -/
def slowQueryText (duration : Int) (query : String) : String :=
  "SQL query took " ++ toString duration ++ "ms: " ++ query

/-- Embedding of `db::detail::timer` (lines 141-162): given the query and the
clock reading at construction, the completion action as a function of the
clock reading when it runs, yielding the lines it logs. -/
def timer (cfg : Settings) (query : String) (start : Int) : Int → List LogLine :=
  fun stop =>
    let duration := elapsedMs start stop
    if cfg.SQL_SLOW_QUERY_LOG_ENABLE then
      if duration > (cfg.SQL_SLOW_QUERY_ERROR_TIME : Int) then
        [LogLine.mk Severity.error (slowQueryText duration query)]
      else if duration > (cfg.SQL_SLOW_QUERY_WARNING_TIME : Int) then
        [LogLine.mk Severity.warning (slowQueryText duration query)]
      else []
    else []

end detail

/-- Embedding of `db::queryStr` (lines 164-188).  `createStatement` is called on
`state.connection` before the `try` block; the timer completes when the `try`
block is left, on either path. -/
def queryStr {D : Type} (env : Env D) (cfg : Settings) (rawQuery : String) (w : World D) :
    Outcome (Option detail.ResultSetWrapper) × World D :=
  match detail.getState env cfg w with
  | (Outcome.threw e, w1) => (Outcome.threw e, w1)
  | (Outcome.nullDeref, w1) => (Outcome.nullDeref, w1)
  | (Outcome.ret _, w1) =>
    match w1.state.connection with
    | none => (Outcome.nullDeref, w1)
    | some h =>
      match env.createStatement h w1.driver with
      | (Except.error e, d1) => (Outcome.threw e, w1.called (DriverCall.createStatement h) d1)
      | (Except.ok stmt, d1) =>
        let w2 := (w1.called (DriverCall.createStatement h) d1).logged Severity.debug
          ("query: " ++ rawQuery)
        match env.hiresNow d1 with
        | (start, d2) =>
          let queryTimer := detail.timer cfg rawQuery start
          let call := DriverCall.executeQuery stmt (cStr rawQuery)
          match env.executeQuery stmt (cStr rawQuery) d2 with
          | (Except.ok rset, d3) =>
            match env.hiresNow d3 with
            | (stop, d4) =>
              let w3 := w2.called call d4
              (Outcome.ret (some (detail.ResultSetWrapper.mk rset rawQuery)),
                { w3 with log := w3.log ++ queryTimer stop })
          | (Except.error e, d3) =>
            match env.hiresNow d3 with
            | (stop, d4) =>
              let w3 := w2.called call d4
              let w4 : World D := { w3 with log := w3.log ++ queryTimer stop }
              (Outcome.ret none,
                (w4.logged Severity.error ("Query Failed: " ++ cStr rawQuery)).logged
                  Severity.error e)

end db

/-- Embedding of `ping_connection` (lines 48-73); `tick` and `task` are not
used by the body.  `state.connection->isValid()` is evaluated without a null
test, inside the `try`; the result of `reconnect()` is discarded. -/
def ping_connection {D : Type} (env : Env D) (cfg : Settings) (_tick : Int) (_task : Option CTask)
    (w : World D) : Outcome Int × World D :=
  match db.detail.getState env cfg w with
  | (Outcome.threw e, w1) => (Outcome.threw e, w1)
  | (Outcome.nullDeref, w1) => (Outcome.nullDeref, w1)
  | (Outcome.ret _, w1) =>
    let w2 := w1.logged Severity.info "(C++) Pinging database to keep connection alive"
    match w2.state.connection with
    | none => (Outcome.nullDeref, w2)
    | some h =>
      match env.isValid h w2.driver with
      | (Except.error e, d1) =>
        (Outcome.ret 0,
          ((w2.called (DriverCall.isValid h) d1).logged Severity.error e).setConnection none)
      | (Except.ok true, d1) => (Outcome.ret 0, w2.called (DriverCall.isValid h) d1)
      | (Except.ok false, d1) =>
        let w3 := (w2.called (DriverCall.isValid h) d1).logged Severity.error
          "Database connection is invalid, attempting to reconnect..."
        match env.reconnect h d1 with
        | (Except.error e, d2) =>
          (Outcome.ret 0,
            ((w3.called (DriverCall.reconnect h) d2).logged Severity.error e).setConnection none)
        | (Except.ok _, d2) => (Outcome.ret 0, w3.called (DriverCall.reconnect h) d2)

/-! ## Concrete collaborators

Drivers over a hidden state that is the `hires_clock` reading in nanoseconds;
`server_clock` stands at 1000 s. -/

namespace Scenario

/-- Settings with the slow-query log enabled, warning at 100 ms and error at
500 ms. -/
def cfg : Settings :=
  Settings.mk "xi" "secret" "127.0.0.1" 3306 "xidb" true 500 100

/-- A healthy server: connections are valid, `connect` hands out connection 1,
and a query takes 600 ms. -/
def envUp : Env Int where
  isValid := fun _ d => (Except.ok true, d)
  reconnect := fun _ d => (Except.ok true, d)
  connect := fun _ _ _ d => (Except.ok 1, d)
  setSchema := fun _ _ d => (Except.ok (), d)
  createStatement := fun _ d => (Except.ok 1, d)
  executeQuery := fun _ _ d => (Except.ok 1, d + 600000000)
  serverNow := fun d => (1000, d)
  hiresNow := fun d => (d, d)

/-- An unreachable server: every driver operation throws. -/
def envDown : Env Int :=
  { envUp with
    isValid := fun _ d => (Except.error "Lost connection to server", d)
    reconnect := fun _ d => (Except.error "Lost connection to server", d)
    connect := fun _ _ _ d => (Except.error "Connection refused", d)
    setSchema := fun _ _ d => (Except.error "Lost connection to server", d)
    createStatement := fun _ d => (Except.error "Lost connection to server", d)
    executeQuery := fun _ _ d => (Except.error "Lost connection to server", d) }

/-- A server that dropped the held connection for good but accepts new ones:
`isValid` and `reconnect` return false, `connect` hands out connection 2. -/
def envStale : Env Int :=
  { envUp with
    isValid := fun _ d => (Except.ok false, d)
    reconnect := fun _ d => (Except.ok false, d)
    connect := fun _ _ _ d => (Except.ok 2, d) }

/-- A held connection that is invalid and whose `reconnect` throws. -/
def envReconnectThrows : Env Int :=
  { envUp with
    isValid := fun _ d => (Except.ok false, d)
    reconnect := fun _ d => (Except.error "Lost connection to server", d) }

/-- A healthy connection on which `createStatement` throws. -/
def envNoStatement : Env Int :=
  { envUp with
    createStatement := fun _ d => (Except.error "Out of memory", d) }

/-- A healthy connection on which `executeQuery` throws after 20 ms. -/
def envBadQuery : Env Int :=
  { envUp with
    executeQuery := fun _ _ d => (Except.error "You have an error in your SQL syntax", d + 20000000) }

/-- The process right after start: no handle, nothing called, scheduled or
logged. -/
def fresh : World Int :=
  World.mk (db.detail.State.mk none) 0 [] [] []

/-- A process holding connection 1, with nothing called, scheduled or logged. -/
def holding : World Int :=
  World.mk (db.detail.State.mk (some 1)) 0 [] [] []

/-- The one task `getState` registers when `server_clock` reads 1000 s. -/
def pingTask : CTask :=
  CTask.mk "ping database connection" 8230 TaskType.TASK_INTERVAL TaskFunc.ping_connection 7230

end Scenario

/-! ## Properties of `db::escapeString` -/

namespace db

theorem lookup_replacements (c : Char) (h : c ≠ '\x00') :
    (match replacements.lookup c with
      | some second => second
      | none => [c]) = escapeImage c := by
  unfold escapeImage replacements
  by_cases h1 : c = '\\'
  · subst h1; rfl
  by_cases h2 : c = '\n'
  · subst h2; rfl
  by_cases h3 : c = '\r'
  · subst h3; rfl
  by_cases h4 : c = '\''
  · subst h4; rfl
  by_cases h5 : c = '"'
  · subst h5; rfl
  by_cases h6 : c = '\x1a'
  · subst h6; rfl
  have e0 : (c == '\x00') = false := beq_eq_false_iff_ne.mpr h
  have e1 : (c == '\\') = false := beq_eq_false_iff_ne.mpr h1
  have e2 : (c == '\n') = false := beq_eq_false_iff_ne.mpr h2
  have e3 : (c == '\r') = false := beq_eq_false_iff_ne.mpr h3
  have e4 : (c == '\'') = false := beq_eq_false_iff_ne.mpr h4
  have e5 : (c == '"') = false := beq_eq_false_iff_ne.mpr h5
  have e6 : (c == '\x1a') = false := beq_eq_false_iff_ne.mpr h6
  simp only [List.lookup, e0, e1, e2, e3, e4, e5, e6, h1, h2, h3, h4, h5, h6, if_false]

theorem escapeLoop_eq (s acc : List Char) :
    escapeLoop s acc = acc ++ (beforeNull s).flatMap escapeImage := by
  induction s generalizing acc with
  | nil => simp [escapeLoop, beforeNull]
  | cons c rest ih =>
    unfold escapeLoop
    by_cases h : c = '\x00'
    · simp [h, beforeNull]
    · have hl := lookup_replacements c h
      simp only [h, if_false]
      have hb : beforeNull (c :: rest) = c :: beforeNull rest := by
        simp [beforeNull, List.takeWhile_cons, h]
      rw [hb, List.flatMap_cons, ← hl]
      cases hc : replacements.lookup c with
      | some second => simp [ih, List.append_assoc]
      | none => simp [ih, List.append_assoc]

theorem trailingBackslashes_snoc (l : List Char) (c : Char) :
    trailingBackslashes (l ++ [c]) = if c = '\\' then trailingBackslashes l + 1 else 0 := by
  unfold trailingBackslashes
  by_cases h : c = '\\' <;> simp [List.takeWhile_cons, h]

theorem QuotesEscaped_snoc (out : List Char) (c : Char) (hout : QuotesEscaped out)
    (hc : isQuote c → trailingBackslashes out % 2 = 1) : QuotesEscaped (out ++ [c]) := by
  intro pre q post heq hq
  rcases List.eq_nil_or_concat post with hp | ⟨post', x, hp⟩
  · subst hp
    have h1 := List.append_inj' heq rfl
    obtain ⟨h1, h2⟩ := h1
    simp at h2
    subst h1; subst h2
    exact hc hq
  · subst hp
    have heq' : out ++ [c] = (pre ++ q :: post') ++ [x] := by simpa using heq
    have h1 := (List.append_inj' heq' rfl).1
    exact hout pre q post' h1 hq


theorem NoRawControl_append (a b : List Char) (ha : NoRawControl a) (hb : NoRawControl b) :
    NoRawControl (a ++ b) := by
  intro c hc
  rcases List.mem_append.mp hc with h | h
  · exact ha c h
  · exact hb c h

theorem EscInv_nil : EscInv [] := by
  refine ⟨by decide, ?_, ?_⟩
  · intro pre q post h
    cases pre <;> simp at h
  · intro c hc
    cases hc

theorem EscInv_pair (out : List Char) (x : Char) (h : EscInv out)
    (hx : x ≠ '\x00' ∧ x ≠ '\n' ∧ x ≠ '\r' ∧ x ≠ '\x1a') :
    EscInv (out ++ ['\\', x]) := by
  obtain ⟨hev, hq, hn⟩ := h
  have hsplit : out ++ ['\\', x] = (out ++ ['\\']) ++ [x] := by simp
  have ht1 : trailingBackslashes (out ++ ['\\']) = trailingBackslashes out + 1 := by
    rw [trailingBackslashes_snoc]; simp
  refine ⟨?_, ?_, ?_⟩
  · rw [hsplit, trailingBackslashes_snoc, ht1]
    split <;> omega
  · rw [hsplit]
    apply QuotesEscaped_snoc
    · apply QuotesEscaped_snoc _ _ hq
      intro hb
      rcases hb with hb | hb <;> exact absurd hb (by decide)
    · intro _
      rw [ht1]; omega
  · apply NoRawControl_append _ _ hn
    intro c hc
    simp only [List.mem_cons, List.mem_singleton, List.not_mem_nil, or_false] at hc
    rcases hc with hc | hc
    · subst hc; decide
    · subst hc; exact hx

theorem EscInv_raw (out : List Char) (c : Char) (h : EscInv out)
    (hb : c ≠ '\\') (hq1 : c ≠ '\'') (hq2 : c ≠ '"')
    (hx : c ≠ '\x00' ∧ c ≠ '\n' ∧ c ≠ '\r' ∧ c ≠ '\x1a') :
    EscInv (out ++ [c]) := by
  obtain ⟨_, hq, hn⟩ := h
  refine ⟨?_, ?_, ?_⟩
  · rw [trailingBackslashes_snoc]; simp [hb]
  · apply QuotesEscaped_snoc _ _ hq
    intro hc
    rcases hc with hc | hc
    · exact absurd hc hq1
    · exact absurd hc hq2
  · apply NoRawControl_append _ _ hn
    intro d hd
    simp only [List.mem_singleton] at hd
    subst hd; exact hx

theorem EscInv_image (out : List Char) (c : Char) (h0 : c ≠ '\x00') (h : EscInv out) :
    EscInv (out ++ escapeImage c) := by
  unfold escapeImage
  split_ifs with h1 h2 h3 h4 h5 h6
  · exact EscInv_pair out _ h (by decide)
  · exact EscInv_pair out _ h (by decide)
  · exact EscInv_pair out _ h (by decide)
  · exact EscInv_pair out _ h (by decide)
  · exact EscInv_pair out _ h (by decide)
  · exact EscInv_pair out _ h (by decide)
  · exact EscInv_raw out c h h1 h4 h5 ⟨h0, h2, h3, h6⟩

theorem EscInv_flatMap (l out : List Char) (hl : ∀ c ∈ l, c ≠ '\x00') (h : EscInv out) :
    EscInv (out ++ l.flatMap escapeImage) := by
  induction l generalizing out with
  | nil => simpa using h
  | cons c rest ih =>
    rw [List.flatMap_cons, ← List.append_assoc]
    apply ih
    · intro d hd; exact hl d (List.mem_cons_of_mem _ hd)
    · exact EscInv_image out c (hl c (List.mem_cons_self _ _)) h

theorem beforeNull_ne (l : List Char) : ∀ c ∈ beforeNull l, c ≠ '\x00' := by
  intro c hc
  have := List.mem_takeWhile_imp hc
  simpa using this

theorem EscInv_escapeLoop (s : List Char) : EscInv (escapeLoop s []) := by
  rw [escapeLoop_eq]
  exact EscInv_flatMap _ _ (beforeNull_ne s) EscInv_nil

theorem beforeNull_of_not_mem (l : List Char) (h : '\x00' ∉ l) : beforeNull l = l := by
  unfold beforeNull
  rw [List.takeWhile_eq_self_iff]
  intro c hc
  have : c ≠ '\x00' := fun e => h (e ▸ hc)
  simpa using this

theorem beforeNull_append_null (pre suf : List Char) (h : '\x00' ∉ pre) :
    beforeNull (pre ++ '\x00' :: suf) = pre := by
  induction pre with
  | nil => simp [beforeNull]
  | cons c rest ih =>
    have hc : c ≠ '\x00' := fun e => h (e ▸ List.mem_cons_self _ _)
    have hr : '\x00' ∉ rest := fun e => h (List.mem_cons_of_mem _ e)
    have := ih hr
    simp only [beforeNull] at this ⊢
    simp [List.takeWhile_cons, hc]
    simpa using this

theorem literalEnds_image (c : Char) (rest : List Char) :
    literalEnds false (escapeImage c ++ rest) = literalEnds false rest := by
  unfold escapeImage
  split_ifs with h1 h2 h3 h4 h5 h6 <;> simp [literalEnds, *]

theorem literalEnds_flatMap (l rest : List Char) :
    literalEnds false (l.flatMap escapeImage ++ rest) = literalEnds false rest := by
  induction l with
  | nil => simp
  | cons c t ih => rw [List.flatMap_cons, List.append_assoc, literalEnds_image, ih]

theorem escapeString_data (s : String) :
    (escapeString s).data = (beforeNull s.data).flatMap escapeImage := by
  simp [escapeString, escapeLoop_eq]

/-- C1: `db::escapeString s` is the concatenation, in order, of the images of
the characters of `s` that precede its first null character (of all of `s`
when it has none); what follows the first null does not reach the output; each
of the six table characters yields its two-character escape sequence, and
every other character except null yields itself. -/
theorem escapeString_eq_images (s : String) :
    (escapeString s).data = (beforeNull s.data).flatMap escapeImage
    ∧ ('\x00' ∉ s.data → (escapeString s).data = s.data.flatMap escapeImage)
    ∧ (∀ pre suf : List Char, s.data = pre ++ '\x00' :: suf → '\x00' ∉ pre →
        escapeString s = escapeString (String.mk pre))
    ∧ (escapeString "\\" = "\\\\" ∧ escapeString "\n" = "\\n" ∧ escapeString "\r" = "\\r"
        ∧ escapeString "'" = "\\'" ∧ escapeString "\"" = "\\\"" ∧ escapeString "\x1a" = "\\Z")
    ∧ (∀ c : Char, c ≠ '\x00' → c ≠ '\\' → c ≠ '\n' → c ≠ '\r' → c ≠ '\'' → c ≠ '"' →
        c ≠ '\x1a' → escapeString (String.singleton c) = String.singleton c) := by
  refine ⟨escapeString_data s, ?_, ?_, by decide, ?_⟩
  · intro h
    rw [escapeString_data, beforeNull_of_not_mem _ h]
  · intro pre suf hs hpre
    apply String.ext
    rw [escapeString_data, escapeString_data, hs, beforeNull_append_null _ _ hpre,
      beforeNull_of_not_mem _ hpre]
  · intro c h0 h1 h2 h3 h4 h5 h6
    apply String.ext
    rw [escapeString_data]
    have hd : (String.singleton c).data = [c] := rfl
    rw [hd, beforeNull_of_not_mem [c] (by simpa using Ne.symm h0)]
    simp [escapeImage, h1, h2, h3, h4, h5, h6]

/-- C1 at the input `a'b`, null, `c`, newline: the output is `a\'b`. -/
theorem escapeString_eq_images_witness :
    escapeString "a'b\x00c\n" = escapeString "a'b" ∧ escapeString "a'b" = "a\\'b" :=
  ⟨(escapeString_eq_images "a'b\x00c\n").2.2.1 ['a', '\'', 'b'] ['c', '\n'] (by decide)
      (by decide), by decide⟩

/-- C10: the output of `db::escapeString` holds no null, newline, carriage
return or 0x1A character, and each single or double quote in it stands right
after a maximal run of backslashes of odd length; hence a reader of a quoted
SQL literal with backslash escapes finds no quote in it that ends the literal,
whatever text follows the output. -/
theorem escapeString_quotes_escaped (s : String) :
    NoRawControl (escapeString s).data
    ∧ QuotesEscaped (escapeString s).data
    ∧ (∀ rest, literalEnds false ((escapeString s).data ++ rest) = literalEnds false rest) := by
  have h := EscInv_escapeLoop s.data
  refine ⟨h.2.2, h.2.1, ?_⟩
  intro rest
  rw [escapeString_data, literalEnds_flatMap]

/-- C10 at the input `a'b`: the quote of the output `a\'b` follows one
backslash. -/
theorem escapeString_quotes_escaped_witness :
    (escapeString "a'b").data = ['a', '\\'] ++ '\'' :: ['b'] ∧ isQuote '\''
      ∧ trailingBackslashes ['a', '\\'] % 2 = 1 :=
  ⟨by decide, Or.inl rfl,
    (escapeString_quotes_escaped "a'b").2.1 ['a', '\\'] '\'' ['b'] (by decide) (Or.inl rfl)⟩

end db

/-! ## Properties of the connection state -/

section StateProperties

open db db.detail

variable {D : Type}

theorem connectCalls_append (a b : List DriverCall) :
    connectCalls (a ++ b) = connectCalls a + connectCalls b := by
  simp [connectCalls, List.countP_append]

theorem pingDuration_eq : pingDuration = 7230 := by decide

/-- C9: with the slow-query log enabled and `d` the elapsed milliseconds, the
completion action of `db::detail::timer` logs exactly one line, at error
severity, when `d` is over the error threshold; exactly one line, at warning
severity, when `d` is over the warning threshold and not over the error
threshold; and nothing when `d` is over neither.  The line holds the decimal
text of `d` and the query text. -/
theorem timer_classification (cfg : Settings) (q : String) (start stop d : Int)
    (hen : cfg.SQL_SLOW_QUERY_LOG_ENABLE = true) (hd : elapsedMs start stop = d) :
    (d > (cfg.SQL_SLOW_QUERY_ERROR_TIME : Int) →
        timer cfg q start stop = [LogLine.mk Severity.error (slowQueryText d q)])
    ∧ (d > (cfg.SQL_SLOW_QUERY_WARNING_TIME : Int) → ¬ d > (cfg.SQL_SLOW_QUERY_ERROR_TIME : Int) →
        timer cfg q start stop = [LogLine.mk Severity.warning (slowQueryText d q)])
    ∧ (¬ d > (cfg.SQL_SLOW_QUERY_ERROR_TIME : Int) → ¬ d > (cfg.SQL_SLOW_QUERY_WARNING_TIME : Int) →
        timer cfg q start stop = [])
    ∧ (toString d).data <:+: (slowQueryText d q).data
    ∧ q.data <:+: (slowQueryText d q).data := by
  refine ⟨?_, ?_, ?_, ?_, ?_⟩
  · intro h
    simp [timer, hen, hd, h]
  · intro hw he
    simp only [timer, hen, hd, if_true, if_neg he, if_pos hw]
  · intro he hw
    simp only [timer, hen, hd, if_true, if_neg he, if_neg hw]
  · refine ⟨"SQL query took ".data, ("ms: " ++ q).data, ?_⟩
    simp [slowQueryText, String.data_append]
  · refine ⟨("SQL query took " ++ toString d ++ "ms: ").data, [], ?_⟩
    simp [slowQueryText, String.data_append]

/-- C9 at warning 100 ms, error 500 ms and a query that took 600 ms: one error
line, with a count of 600. -/
theorem timer_classification_witness :
    timer Scenario.cfg "SELECT 1" 0 600000000
      = [LogLine.mk Severity.error "SQL query took 600ms: SELECT 1"] ∧ (600 : Int) ≥ 500 :=
  ⟨(timer_classification Scenario.cfg "SELECT 1" 0 600000000 600 rfl (by decide)).1 (by decide),
    by decide⟩

/-- C5: when a handle is held and the driver reports it valid at each of two
consecutive `db::detail::getState` calls, both calls return, the same handle is
held after each, the only driver calls are the two validity checks (no
`connect`), and no task is registered. -/
theorem getState_twice_reuses (env : Env D) (cfg : Settings) (w : World D) (h : Handle)
    (d1 d2 : D) (hconn : w.state.connection = some h)
    (hv1 : env.isValid h w.driver = (Except.ok true, d1))
    (hv2 : env.isValid h d1 = (Except.ok true, d2)) :
    (getState env cfg w).1 = Outcome.ret ()
    ∧ (getState env cfg w).2.state.connection = some h
    ∧ (getState env cfg w).2.calls = w.calls ++ [DriverCall.isValid h]
    ∧ (getState env cfg (getState env cfg w).2).1 = Outcome.ret ()
    ∧ (getState env cfg (getState env cfg w).2).2.state.connection = some h
    ∧ (getState env cfg (getState env cfg w).2).2.calls
        = w.calls ++ [DriverCall.isValid h, DriverCall.isValid h]
    ∧ connectCalls (getState env cfg (getState env cfg w).2).2.calls = connectCalls w.calls
    ∧ (getState env cfg (getState env cfg w).2).2.tasks = w.tasks := by
  have e1 : getState env cfg w = (Outcome.ret (), w.called (DriverCall.isValid h) d1) := by
    simp [getState, getStateReuse, hconn, hv1]
  have e2 : getState env cfg (w.called (DriverCall.isValid h) d1)
      = (Outcome.ret (), (w.called (DriverCall.isValid h) d1).called (DriverCall.isValid h) d2) := by
    have hc : (w.called (DriverCall.isValid h) d1).state.connection = some h := hconn
    have hd : (w.called (DriverCall.isValid h) d1).driver = d1 := rfl
    simp [getState, getStateReuse, hc, hd, hv2]
  rw [e1]
  dsimp only
  rw [e2]
  refine ⟨rfl, hconn, rfl, rfl, hconn, ?_, ?_, rfl⟩
  · simp [World.called]
  · simp [World.called, connectCalls_append, connectCalls, isConnect]

/-- C5 on a healthy server holding connection 1. -/
theorem getState_twice_reuses_witness :
    (getState Scenario.envUp Scenario.cfg
        (getState Scenario.envUp Scenario.cfg Scenario.holding).2).2.state.connection = some 1
    ∧ connectCalls (getState Scenario.envUp Scenario.cfg
        (getState Scenario.envUp Scenario.cfg Scenario.holding).2).2.calls = 0 :=
  have h := getState_twice_reuses Scenario.envUp Scenario.cfg Scenario.holding 1 0 0 rfl rfl rfl
  ⟨h.2.2.2.2.1, h.2.2.2.2.2.2.1⟩

theorem getStateCreate_tasks (env : Env D) (cfg : Settings) (w : World D) :
    (getStateCreate env cfg w).tasks = w.tasks := by
  unfold getStateCreate
  dsimp only
  split
  · rfl
  · split <;> rfl

theorem getStateCreate_connectCalls (env : Env D) (cfg : Settings) (w : World D) :
    connectCalls (getStateCreate env cfg w).calls = connectCalls w.calls + 1 := by
  unfold getStateCreate
  dsimp only
  split
  · simp [World.called, World.logged, World.setConnection, connectCalls_append, connectCalls,
      isConnect]
  · split <;>
      simp [World.called, World.logged, World.setConnection, connectCalls_append, connectCalls,
        isConnect]

theorem getStateReuse_frame (env : Env D) (w : World D) :
    (getStateReuse env w).2.tasks = w.tasks
    ∧ connectCalls (getStateReuse env w).2.calls = connectCalls w.calls
    ∧ (getStateReuse env w).2.state = w.state
    ∧ (getStateReuse env w).2.log = w.log
    ∧ (getStateReuse env w).1 ≠ Outcome.nullDeref := by
  unfold getStateReuse
  split
  · simp
  · split
    · simp [World.called, connectCalls_append, connectCalls, isConnect]
    · simp [World.called, connectCalls_append, connectCalls, isConnect]
    · dsimp only
      split <;> simp [World.called, connectCalls_append, connectCalls, isConnect]

theorem getStateCreate_connection_ok (env : Env D) (cfg : Settings) (w : World D)
    (h2 : Handle) (d3 d4 : D) (u : Unit)
    (hc : env.connect (cStr ("tcp://" ++ cfg.SQL_HOST ++ ":" ++ toString cfg.SQL_PORT))
      (cStr cfg.SQL_LOGIN) (cStr cfg.SQL_PASSWORD) w.driver = (Except.ok h2, d3))
    (hs : env.setSchema h2 (cStr cfg.SQL_DATABASE) d3 = (Except.ok u, d4)) :
    (getStateCreate env cfg w).state.connection = some h2 := by
  simp [getStateCreate, hc, hs, World.called, World.setConnection]

theorem getStateCreate_connection_refused (env : Env D) (cfg : Settings) (w : World D)
    (e : String) (d3 : D)
    (hc : env.connect (cStr ("tcp://" ++ cfg.SQL_HOST ++ ":" ++ toString cfg.SQL_PORT))
      (cStr cfg.SQL_LOGIN) (cStr cfg.SQL_PASSWORD) w.driver = (Except.error e, d3)) :
    (getStateCreate env cfg w).state.connection = none := by
  simp [getStateCreate, hc, World.called, World.setConnection, World.logged]

theorem getStateCreate_connection_schema (env : Env D) (cfg : Settings) (w : World D)
    (h2 : Handle) (d3 d4 : D) (e : String)
    (hc : env.connect (cStr ("tcp://" ++ cfg.SQL_HOST ++ ":" ++ toString cfg.SQL_PORT))
      (cStr cfg.SQL_LOGIN) (cStr cfg.SQL_PASSWORD) w.driver = (Except.ok h2, d3))
    (hs : env.setSchema h2 (cStr cfg.SQL_DATABASE) d3 = (Except.error e, d4)) :
    (getStateCreate env cfg w).state.connection = none := by
  simp [getStateCreate, hc, hs, World.called, World.setConnection, World.logged]

theorem getStateCreate_connection_cases (env : Env D) (cfg : Settings) (w : World D) :
    (getStateCreate env cfg w).state.connection = none
    ∨ ∃ h2 d3, env.connect (cStr ("tcp://" ++ cfg.SQL_HOST ++ ":" ++ toString cfg.SQL_PORT))
        (cStr cfg.SQL_LOGIN) (cStr cfg.SQL_PASSWORD) w.driver = (Except.ok h2, d3)
      ∧ (getStateCreate env cfg w).state.connection = some h2 := by
  rcases hc : env.connect (cStr ("tcp://" ++ cfg.SQL_HOST ++ ":" ++ toString cfg.SQL_PORT))
      (cStr cfg.SQL_LOGIN) (cStr cfg.SQL_PASSWORD) w.driver with ⟨e | h2, d3⟩
  · exact Or.inl (getStateCreate_connection_refused env cfg w e d3 hc)
  · rcases hs : env.setSchema h2 (cStr cfg.SQL_DATABASE) d3 with ⟨e | u, d4⟩
    · exact Or.inl (getStateCreate_connection_schema env cfg w h2 d3 d4 e hc hs)
    · exact Or.inr ⟨h2, d3, rfl, getStateCreate_connection_ok env cfg w h2 d3 d4 u hc hs⟩

/-- What `getState` does once the reuse test has returned false: it returns,
with the state the creation attempt left and one more task. -/
theorem getState_of_reuse_false (env : Env D) (cfg : Settings) (w w1 : World D)
    (hr : getStateReuse env w = (Outcome.ret false, w1)) :
    (getState env cfg w).1 = Outcome.ret ()
    ∧ (getState env cfg w).2.state = (getStateCreate env cfg w1).state
    ∧ (getState env cfg w).2.calls = (getStateCreate env cfg w1).calls
    ∧ (getState env cfg w).2.tasks = w.tasks ++
        [CTask.mk "ping database connection"
          ((env.serverNow (getStateCreate env cfg w1).driver).1 + 7230)
          TaskType.TASK_INTERVAL TaskFunc.ping_connection 7230] := by
  have hf := getStateReuse_frame env w
  rw [hr] at hf
  have ht : w1.tasks = w.tasks := hf.1
  simp [getState, hr, pingDuration_eq, getStateCreate_tasks, ht]

/-- What `getState` does when the reuse test does not return false: it ends as
the reuse test did. -/
theorem getState_of_reuse_other (env : Env D) (cfg : Settings) (w : World D)
    (hr : (getStateReuse env w).1 ≠ Outcome.ret false) :
    (getState env cfg w).2 = (getStateReuse env w).2
    ∧ ((getState env cfg w).1 = Outcome.ret () ∨ ∃ e, (getState env cfg w).1 = Outcome.threw e) := by
  unfold getState
  split
  next e w1 heq => rw [heq]; exact ⟨rfl, Or.inr ⟨e, rfl⟩⟩
  next w1 heq => exact absurd heq (fun h => (getStateReuse_frame env w).2.2.2.2 (by rw [h]))
  next w1 heq => rw [heq]; exact ⟨rfl, Or.inl rfl⟩
  next w1 heq => exact absurd (by rw [heq]) hr

theorem getStateReuse_cases (env : Env D) (w : World D) :
    (∃ w1, getStateReuse env w = (Outcome.ret false, w1))
    ∨ (getStateReuse env w).1 ≠ Outcome.ret false := by
  rcases h : getStateReuse env w with ⟨o, w1⟩
  by_cases ho : o = Outcome.ret false
  · subst ho; exact Or.inl ⟨w1, rfl⟩
  · exact Or.inr ho

theorem getStateCreate_driver_refused (env : Env D) (cfg : Settings) (w : World D)
    (e : String) (d3 : D)
    (hc : env.connect (cStr ("tcp://" ++ cfg.SQL_HOST ++ ":" ++ toString cfg.SQL_PORT))
      (cStr cfg.SQL_LOGIN) (cStr cfg.SQL_PASSWORD) w.driver = (Except.error e, d3)) :
    (getStateCreate env cfg w).driver = d3 := by
  simp [getStateCreate, hc, World.called, World.setConnection, World.logged]

theorem getStateCreate_driver_schema (env : Env D) (cfg : Settings) (w : World D)
    (h2 : Handle) (d3 d4 : D) (r : Except String Unit)
    (hc : env.connect (cStr ("tcp://" ++ cfg.SQL_HOST ++ ":" ++ toString cfg.SQL_PORT))
      (cStr cfg.SQL_LOGIN) (cStr cfg.SQL_PASSWORD) w.driver = (Except.ok h2, d3))
    (hs : env.setSchema h2 (cStr cfg.SQL_DATABASE) d3 = (r, d4)) :
    (getStateCreate env cfg w).driver = d4 := by
  cases r <;> simp [getStateCreate, hc, hs, World.called, World.setConnection, World.logged]

theorem getState_driver_of_reuse_false (env : Env D) (cfg : Settings) (w w1 : World D)
    (hr : getStateReuse env w = (Outcome.ret false, w1)) :
    (getState env cfg w).2.driver = (env.serverNow (getStateCreate env cfg w1).driver).2 := by
  simp [getState, hr]

/-- The creation path of `getState`, entered with the driver in state `dS`:
the call returns, has issued one `connect`, and has registered one ping task
whose first firing is 7230 s after the `server_clock` reading taken right
after the creation attempt, whatever that attempt gave. -/
theorem getState_creation_path (env : Env D) (cfg : Settings) (w w1 : World D)
    (hr : getStateReuse env w = (Outcome.ret false, w1)) :
    (getState env cfg w).1 = Outcome.ret ()
    ∧ connectCalls (getState env cfg w).2.calls = connectCalls w.calls + 1
    ∧ (∀ e d3,
        env.connect (cStr ("tcp://" ++ cfg.SQL_HOST ++ ":" ++ toString cfg.SQL_PORT))
          (cStr cfg.SQL_LOGIN) (cStr cfg.SQL_PASSWORD) w1.driver = (Except.error e, d3) →
        (getState env cfg w).2.state.connection = none
        ∧ (getState env cfg w).2.driver = (env.serverNow d3).2
        ∧ (getState env cfg w).2.tasks = w.tasks ++
            [CTask.mk "ping database connection" ((env.serverNow d3).1 + 7230)
              TaskType.TASK_INTERVAL TaskFunc.ping_connection 7230])
    ∧ (∀ h2 d3 u d4,
        env.connect (cStr ("tcp://" ++ cfg.SQL_HOST ++ ":" ++ toString cfg.SQL_PORT))
          (cStr cfg.SQL_LOGIN) (cStr cfg.SQL_PASSWORD) w1.driver = (Except.ok h2, d3) →
        env.setSchema h2 (cStr cfg.SQL_DATABASE) d3 = (Except.ok u, d4) →
        (getState env cfg w).2.state.connection = some h2
        ∧ (getState env cfg w).2.driver = (env.serverNow d4).2
        ∧ (getState env cfg w).2.tasks = w.tasks ++
            [CTask.mk "ping database connection" ((env.serverNow d4).1 + 7230)
              TaskType.TASK_INTERVAL TaskFunc.ping_connection 7230])
    ∧ (∀ h2 d3 e d4,
        env.connect (cStr ("tcp://" ++ cfg.SQL_HOST ++ ":" ++ toString cfg.SQL_PORT))
          (cStr cfg.SQL_LOGIN) (cStr cfg.SQL_PASSWORD) w1.driver = (Except.ok h2, d3) →
        env.setSchema h2 (cStr cfg.SQL_DATABASE) d3 = (Except.error e, d4) →
        (getState env cfg w).2.state.connection = none
        ∧ (getState env cfg w).2.driver = (env.serverNow d4).2
        ∧ (getState env cfg w).2.tasks = w.tasks ++
            [CTask.mk "ping database connection" ((env.serverNow d4).1 + 7230)
              TaskType.TASK_INTERVAL TaskFunc.ping_connection 7230]) := by
  have hf := getStateReuse_frame env w
  rw [hr] at hf
  have hg := getState_of_reuse_false env cfg w w1 hr
  have hd := getState_driver_of_reuse_false env cfg w w1 hr
  refine ⟨hg.1, ?_, ?_, ?_, ?_⟩
  · rw [hg.2.2.1, getStateCreate_connectCalls]
    exact congrArg (· + 1) hf.2.1
  · intro e d3 hc
    have hdr := getStateCreate_driver_refused env cfg w1 e d3 hc
    refine ⟨?_, ?_, ?_⟩
    · rw [hg.2.1]; exact getStateCreate_connection_refused env cfg w1 e d3 hc
    · rw [hd, hdr]
    · rw [hg.2.2.2, hdr]
  · intro h2 d3 u d4 hc hs
    have hdr := getStateCreate_driver_schema env cfg w1 h2 d3 d4 (Except.ok u) hc hs
    refine ⟨?_, ?_, ?_⟩
    · rw [hg.2.1]; exact getStateCreate_connection_ok env cfg w1 h2 d3 d4 u hc hs
    · rw [hd, hdr]
    · rw [hg.2.2.2, hdr]
  · intro h2 d3 e d4 hc hs
    have hdr := getStateCreate_driver_schema env cfg w1 h2 d3 d4 (Except.error e) hc hs
    refine ⟨?_, ?_, ?_⟩
    · rw [hg.2.1]; exact getStateCreate_connection_schema env cfg w1 h2 d3 d4 e hc hs
    · rw [hd, hdr]
    · rw [hg.2.2.2, hdr]

/-- C4, as the code has it: `db::detail::getState` registers the task "ping
database connection" exactly when the call attempted to create a handle (it
issued `connect`), whether the creation then succeeded or failed.

* Fast-path reuse (a handle is held and `isValid()`, or else `reconnect()`,
  returns true): the call returns, keeps the handle, issues no `connect` and
  registers nothing.
* An exception from `isValid()` or `reconnect()` leaves the call: no `connect`,
  nothing registered.
* Otherwise (no handle held, or `isValid()` and `reconnect()` both return
  false) the call returns, has issued one `connect`, and has registered exactly
  one task, whether `connect` threw, `setSchema` threw, or both succeeded; the
  interval is 7230 s and the first firing is 7230 s after the `server_clock`
  reading taken right after the creation attempt. -/
theorem getState_registers_iff_connect_issued (env : Env D) (cfg : Settings) (w : World D) :
    (∀ h d1, w.state.connection = some h →
        (env.isValid h w.driver = (Except.ok true, d1)
          ∨ ∃ d0, env.isValid h w.driver = (Except.ok false, d0)
              ∧ env.reconnect h d0 = (Except.ok true, d1)) →
        (getState env cfg w).1 = Outcome.ret ()
        ∧ (getState env cfg w).2.state.connection = some h
        ∧ connectCalls (getState env cfg w).2.calls = connectCalls w.calls
        ∧ (getState env cfg w).2.tasks = w.tasks)
    ∧ (∀ h e d1, w.state.connection = some h →
        (env.isValid h w.driver = (Except.error e, d1)
          ∨ ∃ d0, env.isValid h w.driver = (Except.ok false, d0)
              ∧ env.reconnect h d0 = (Except.error e, d1)) →
        (getState env cfg w).1 = Outcome.threw e
        ∧ connectCalls (getState env cfg w).2.calls = connectCalls w.calls
        ∧ (getState env cfg w).2.tasks = w.tasks)
    ∧ (∀ dS, ((w.state.connection = none ∧ dS = w.driver)
          ∨ ∃ h d0, w.state.connection = some h
              ∧ env.isValid h w.driver = (Except.ok false, d0)
              ∧ env.reconnect h d0 = (Except.ok false, dS)) →
        (getState env cfg w).1 = Outcome.ret ()
        ∧ connectCalls (getState env cfg w).2.calls = connectCalls w.calls + 1
        ∧ (∀ e d3,
            env.connect (cStr ("tcp://" ++ cfg.SQL_HOST ++ ":" ++ toString cfg.SQL_PORT))
              (cStr cfg.SQL_LOGIN) (cStr cfg.SQL_PASSWORD) dS = (Except.error e, d3) →
            (getState env cfg w).2.state.connection = none
            ∧ (getState env cfg w).2.driver = (env.serverNow d3).2
            ∧ (getState env cfg w).2.tasks = w.tasks ++
                [CTask.mk "ping database connection" ((env.serverNow d3).1 + 7230)
                  TaskType.TASK_INTERVAL TaskFunc.ping_connection 7230])
        ∧ (∀ h2 d3 u d4,
            env.connect (cStr ("tcp://" ++ cfg.SQL_HOST ++ ":" ++ toString cfg.SQL_PORT))
              (cStr cfg.SQL_LOGIN) (cStr cfg.SQL_PASSWORD) dS = (Except.ok h2, d3) →
            env.setSchema h2 (cStr cfg.SQL_DATABASE) d3 = (Except.ok u, d4) →
            (getState env cfg w).2.state.connection = some h2
            ∧ (getState env cfg w).2.driver = (env.serverNow d4).2
            ∧ (getState env cfg w).2.tasks = w.tasks ++
                [CTask.mk "ping database connection" ((env.serverNow d4).1 + 7230)
                  TaskType.TASK_INTERVAL TaskFunc.ping_connection 7230])
        ∧ (∀ h2 d3 e d4,
            env.connect (cStr ("tcp://" ++ cfg.SQL_HOST ++ ":" ++ toString cfg.SQL_PORT))
              (cStr cfg.SQL_LOGIN) (cStr cfg.SQL_PASSWORD) dS = (Except.ok h2, d3) →
            env.setSchema h2 (cStr cfg.SQL_DATABASE) d3 = (Except.error e, d4) →
            (getState env cfg w).2.state.connection = none
            ∧ (getState env cfg w).2.driver = (env.serverNow d4).2
            ∧ (getState env cfg w).2.tasks = w.tasks ++
                [CTask.mk "ping database connection" ((env.serverNow d4).1 + 7230)
                  TaskType.TASK_INTERVAL TaskFunc.ping_connection 7230])) := by
  refine ⟨?_, ?_, ?_⟩
  · intro h d1 hconn hfast
    rcases hfast with hv | ⟨d0, hv, hrc⟩
    · simp [getState, getStateReuse, hconn, hv, World.called, connectCalls_append,
        connectCalls, isConnect]
    · simp [getState, getStateReuse, hconn, hv, hrc, World.called, connectCalls_append,
        connectCalls, isConnect]
  · intro h e d1 hconn hthrow
    rcases hthrow with hv | ⟨d0, hv, hrc⟩
    · simp [getState, getStateReuse, hconn, hv, World.called, connectCalls_append,
        connectCalls, isConnect]
    · simp [getState, getStateReuse, hconn, hv, hrc, World.called, connectCalls_append,
        connectCalls, isConnect]
  · intro dS hslow
    rcases hslow with ⟨hconn, hdS⟩ | ⟨h, d0, hconn, hv, hrc⟩
    · subst hdS
      have hr : getStateReuse env w = (Outcome.ret false, w) := by
        simp [getStateReuse, hconn]
      exact getState_creation_path env cfg w w hr
    · have hr : getStateReuse env w = (Outcome.ret false,
          (w.called (DriverCall.isValid h) d0).called (DriverCall.reconnect h) dS) := by
        simp [getStateReuse, hconn, hv, hrc]
      exact getState_creation_path env cfg w _ hr

/-- C4 on three inputs: a healthy server holding connection 1 (nothing
registered), a process without a handle whose server is unreachable (handle
absent, one task, first firing at 1000 + 7230 s), and a process without a
handle on a healthy server (handle 1, one task). -/
theorem getState_registers_iff_connect_issued_witness :
    (getState Scenario.envUp Scenario.cfg Scenario.holding).2.tasks = []
    ∧ ((getState Scenario.envDown Scenario.cfg Scenario.fresh).2.state.connection = none
      ∧ (getState Scenario.envDown Scenario.cfg Scenario.fresh).2.tasks
          = [CTask.mk "ping database connection" 8230 TaskType.TASK_INTERVAL
              TaskFunc.ping_connection 7230])
    ∧ ((getState Scenario.envUp Scenario.cfg Scenario.fresh).2.state.connection = some 1
      ∧ (getState Scenario.envUp Scenario.cfg Scenario.fresh).2.tasks
          = [CTask.mk "ping database connection" 8230 TaskType.TASK_INTERVAL
              TaskFunc.ping_connection 7230]) :=
  ⟨((getState_registers_iff_connect_issued Scenario.envUp Scenario.cfg Scenario.holding).1 1 0
      rfl (Or.inl rfl)).2.2.2,
    have h := ((getState_registers_iff_connect_issued Scenario.envDown Scenario.cfg
      Scenario.fresh).2.2 0 (Or.inl ⟨rfl, rfl⟩)).2.2.1 "Connection refused" 0 rfl
    ⟨h.1, h.2.2⟩,
    have h := ((getState_registers_iff_connect_issued Scenario.envUp Scenario.cfg
      Scenario.fresh).2.2 0 (Or.inl ⟨rfl, rfl⟩)).2.2.2.1 1 0 () 0 rfl rfl
    ⟨h.1, h.2.2⟩⟩

/-- C4 does not hold as stated: from a process without a handle whose server is
unreachable, `db::detail::getState` returns with the handle absent and has
registered the ping task. -/
theorem getState_registers_after_failed_creation :
    (getState Scenario.envDown Scenario.cfg Scenario.fresh).1 = Outcome.ret ()
    ∧ (getState Scenario.envDown Scenario.cfg Scenario.fresh).2.state.connection = none
    ∧ Scenario.fresh.tasks = []
    ∧ (getState Scenario.envDown Scenario.cfg Scenario.fresh).2.tasks = [Scenario.pingTask] := by
  decide

/-- C6, as the code has it: when the held handle's validity check returns
false, `db::detail::getState` calls `reconnect()` on it before anything else;
if that returns true the same handle is kept and no `connect` is issued; if it
returns false the same call issues one `connect`, and the handle afterwards is
the new one when `connect` and `setSchema` succeed and absent when either
throws.  From an absent handle a call always attempts a creation, and the
handle is present afterwards only as the one `connect` returned. -/
theorem getState_invalid_handle (env : Env D) (cfg : Settings) (w : World D) (h : Handle)
    (d1 : D) (hconn : w.state.connection = some h)
    (hv : env.isValid h w.driver = (Except.ok false, d1)) :
    (∃ rest, (getState env cfg w).2.calls
        = w.calls ++ DriverCall.isValid h :: DriverCall.reconnect h :: rest)
    ∧ (∀ d2, env.reconnect h d1 = (Except.ok true, d2) →
        (getState env cfg w).1 = Outcome.ret ()
        ∧ (getState env cfg w).2.state.connection = some h
        ∧ connectCalls (getState env cfg w).2.calls = connectCalls w.calls)
    ∧ (∀ d2, env.reconnect h d1 = (Except.ok false, d2) →
        (getState env cfg w).1 = Outcome.ret ()
        ∧ connectCalls (getState env cfg w).2.calls = connectCalls w.calls + 1
        ∧ (∀ h2 d3 d4 u,
            env.connect (cStr ("tcp://" ++ cfg.SQL_HOST ++ ":" ++ toString cfg.SQL_PORT))
              (cStr cfg.SQL_LOGIN) (cStr cfg.SQL_PASSWORD) d2 = (Except.ok h2, d3) →
            env.setSchema h2 (cStr cfg.SQL_DATABASE) d3 = (Except.ok u, d4) →
            (getState env cfg w).2.state.connection = some h2)
        ∧ (∀ e d3,
            env.connect (cStr ("tcp://" ++ cfg.SQL_HOST ++ ":" ++ toString cfg.SQL_PORT))
              (cStr cfg.SQL_LOGIN) (cStr cfg.SQL_PASSWORD) d2 = (Except.error e, d3) →
            (getState env cfg w).2.state.connection = none)
        ∧ (∀ h2 d3 d4 e,
            env.connect (cStr ("tcp://" ++ cfg.SQL_HOST ++ ":" ++ toString cfg.SQL_PORT))
              (cStr cfg.SQL_LOGIN) (cStr cfg.SQL_PASSWORD) d2 = (Except.ok h2, d3) →
            env.setSchema h2 (cStr cfg.SQL_DATABASE) d3 = (Except.error e, d4) →
            (getState env cfg w).2.state.connection = none))
    ∧ (∀ w0 : World D, w0.state.connection = none →
        (getState env cfg w0).1 = Outcome.ret ()
        ∧ connectCalls (getState env cfg w0).2.calls = connectCalls w0.calls + 1
        ∧ ((getState env cfg w0).2.state.connection = none
          ∨ ∃ h2 d3,
            env.connect (cStr ("tcp://" ++ cfg.SQL_HOST ++ ":" ++ toString cfg.SQL_PORT))
              (cStr cfg.SQL_LOGIN) (cStr cfg.SQL_PASSWORD) w0.driver = (Except.ok h2, d3)
            ∧ (getState env cfg w0).2.state.connection = some h2)) := by
  refine ⟨?_, ?_, ?_, ?_⟩
  · rcases hrc : env.reconnect h d1 with ⟨e | b, d2⟩
    · refine ⟨[], ?_⟩
      simp [getState, getStateReuse, hconn, hv, hrc, World.called]
    · cases b
      · have hr : getStateReuse env w = (Outcome.ret false,
            (w.called (DriverCall.isValid h) d1).called (DriverCall.reconnect h) d2) := by
          simp [getStateReuse, hconn, hv, hrc]
        rw [(getState_of_reuse_false env cfg w _ hr).2.2.1]
        unfold getStateCreate
        dsimp only
        split
        · exact ⟨_, by simp [World.called, World.logged, World.setConnection]; rfl⟩
        · split <;> exact ⟨_, by simp [World.called, World.logged, World.setConnection]; rfl⟩
      · refine ⟨[], ?_⟩
        simp [getState, getStateReuse, hconn, hv, hrc, World.called]
  · intro d2 hrc
    simp [getState, getStateReuse, hconn, hv, hrc, World.called, connectCalls_append,
      connectCalls, isConnect]
  · intro d2 hrc
    have hr : getStateReuse env w = (Outcome.ret false,
        (w.called (DriverCall.isValid h) d1).called (DriverCall.reconnect h) d2) := by
      simp [getStateReuse, hconn, hv, hrc]
    have hg := getState_of_reuse_false env cfg w _ hr
    refine ⟨hg.1, ?_, ?_, ?_, ?_⟩
    · rw [hg.2.2.1, getStateCreate_connectCalls]
      simp [World.called, connectCalls_append, connectCalls, isConnect]
    · intro h2 d3 d4 u hc hs
      rw [hg.2.1]
      exact getStateCreate_connection_ok env cfg _ h2 d3 d4 u hc hs
    · intro e d3 hc
      rw [hg.2.1]
      exact getStateCreate_connection_refused env cfg _ e d3 hc
    · intro h2 d3 d4 e hc hs
      rw [hg.2.1]
      exact getStateCreate_connection_schema env cfg _ h2 d3 d4 e hc hs
  · intro w0 h0
    have hr : getStateReuse env w0 = (Outcome.ret false, w0) := by
      simp [getStateReuse, h0]
    have hg := getState_of_reuse_false env cfg w0 w0 hr
    refine ⟨hg.1, ?_, ?_⟩
    · rw [hg.2.2.1, getStateCreate_connectCalls]
    · rw [hg.2.1]
      exact getStateCreate_connection_cases env cfg w0

/-- C6 on a server that dropped connection 1 and hands out connection 2. -/
theorem getState_invalid_handle_witness :
    (getState Scenario.envStale Scenario.cfg Scenario.holding).1 = Outcome.ret ()
    ∧ (getState Scenario.envStale Scenario.cfg Scenario.holding).2.state.connection = some 2 :=
  have h := (getState_invalid_handle Scenario.envStale Scenario.cfg Scenario.holding 1 0 rfl
    rfl).2.2.1 0 rfl
  ⟨h.1, h.2.2.1 2 0 0 () rfl rfl⟩

/-- C6 does not hold as stated: with a held handle whose validity check and
reconnection both return false, the handle after `db::detail::getState` is the
newly created connection 2, not absent. -/
theorem getState_failed_reconnect_new_handle :
    Scenario.holding.state.connection = some 1
    ∧ Scenario.envStale.isValid 1 Scenario.holding.driver = (Except.ok false, 0)
    ∧ Scenario.envStale.reconnect 1 0 = (Except.ok false, 0)
    ∧ (getState Scenario.envStale Scenario.cfg Scenario.holding).2.state.connection = some 2
    ∧ (getState Scenario.envStale Scenario.cfg Scenario.holding).2.state.connection ≠ none :=
  ⟨rfl, rfl, rfl, by decide, by decide⟩

/-- The body of `ping_connection` after `getState` has returned touches neither
the tasks nor the number of connect calls, and leaves the handle or wipes it. -/
theorem ping_connection_body_frame (env : Env D) (cfg : Settings) (tick : Int)
    (task : Option CTask) (w : World D) :
    (ping_connection env cfg tick task w).2.tasks = (getState env cfg w).2.tasks
    ∧ connectCalls (ping_connection env cfg tick task w).2.calls
        = connectCalls (getState env cfg w).2.calls
    ∧ ((ping_connection env cfg tick task w).2.state.connection
          = (getState env cfg w).2.state.connection
        ∨ (ping_connection env cfg tick task w).2.state.connection = none) := by
  unfold ping_connection
  split
  next e w1 heq => rw [heq]; exact ⟨rfl, rfl, Or.inl rfl⟩
  next w1 heq => rw [heq]; exact ⟨rfl, rfl, Or.inl rfl⟩
  next u w1 heq =>
    rw [heq]
    dsimp only
    split
    · exact ⟨rfl, rfl, Or.inl rfl⟩
    · split
      · simp [World.called, World.logged, World.setConnection, connectCalls_append,
          connectCalls, isConnect]
      · simp [World.called, World.logged, World.setConnection, connectCalls_append,
          connectCalls, isConnect]
      · split <;>
          simp [World.called, World.logged, World.setConnection, connectCalls_append,
            connectCalls, isConnect]

/-- C8, as the code has it: what `ping_connection` adds to the `getState` call
it starts with registers no task and issues no `connect`, and leaves the handle
`getState` left or wipes it.  When the handle is held on entry and `isValid()`
or `reconnect()` returns true, the tasks are the same before and after the run,
no `connect` is issued and the handle afterwards is the same one or absent.
When no handle is held on entry, the run issues one `connect` and registers one
ping task. -/
theorem ping_connection_frame (env : Env D) (cfg : Settings) (tick : Int)
    (task : Option CTask) (w : World D) :
    ((ping_connection env cfg tick task w).2.tasks = (getState env cfg w).2.tasks
      ∧ connectCalls (ping_connection env cfg tick task w).2.calls
          = connectCalls (getState env cfg w).2.calls
      ∧ ((ping_connection env cfg tick task w).2.state.connection
            = (getState env cfg w).2.state.connection
          ∨ (ping_connection env cfg tick task w).2.state.connection = none))
    ∧ (∀ h d1, w.state.connection = some h →
        (env.isValid h w.driver = (Except.ok true, d1)
          ∨ ∃ d0, env.isValid h w.driver = (Except.ok false, d0)
              ∧ env.reconnect h d0 = (Except.ok true, d1)) →
        (ping_connection env cfg tick task w).2.tasks = w.tasks
        ∧ connectCalls (ping_connection env cfg tick task w).2.calls = connectCalls w.calls
        ∧ ((ping_connection env cfg tick task w).2.state.connection = some h
          ∨ (ping_connection env cfg tick task w).2.state.connection = none))
    ∧ (w.state.connection = none →
        connectCalls (ping_connection env cfg tick task w).2.calls = connectCalls w.calls + 1
        ∧ ∃ now d0 d1, env.serverNow d0 = (now, d1)
          ∧ (ping_connection env cfg tick task w).2.tasks = w.tasks ++
            [CTask.mk "ping database connection" (now + 7230) TaskType.TASK_INTERVAL
              TaskFunc.ping_connection 7230]) := by
  have hb := ping_connection_body_frame env cfg tick task w
  refine ⟨hb, ?_, ?_⟩
  · intro h d1 hconn hfast
    have hg : (getState env cfg w).2.tasks = w.tasks
        ∧ connectCalls (getState env cfg w).2.calls = connectCalls w.calls
        ∧ (getState env cfg w).2.state.connection = some h := by
      rcases hfast with hv | ⟨d0, hv, hrc⟩
      · simp [getState, getStateReuse, hconn, hv, World.called, connectCalls_append,
          connectCalls, isConnect]
      · simp [getState, getStateReuse, hconn, hv, hrc, World.called, connectCalls_append,
          connectCalls, isConnect]
    refine ⟨hb.1.trans hg.1, hb.2.1.trans hg.2.1, ?_⟩
    rcases hb.2.2 with hs | hs
    · exact Or.inl (hs.trans hg.2.2)
    · exact Or.inr hs
  · intro h0
    have hr : getStateReuse env w = (Outcome.ret false, w) := by
      simp [getStateReuse, h0]
    have hg := getState_of_reuse_false env cfg w w hr
    refine ⟨?_, (env.serverNow (getStateCreate env cfg w).driver).1,
      (getStateCreate env cfg w).driver, (env.serverNow (getStateCreate env cfg w).driver).2,
      rfl, hb.1.trans hg.2.2.2⟩
    rw [hb.2.1, hg.2.2.1, getStateCreate_connectCalls]

/-- C8 on a healthy server holding connection 1. -/
theorem ping_connection_frame_witness :
    (ping_connection Scenario.envUp Scenario.cfg 0 none Scenario.holding).2.tasks = []
    ∧ connectCalls (ping_connection Scenario.envUp Scenario.cfg 0 none Scenario.holding).2.calls
        = 0
    ∧ (ping_connection Scenario.envUp Scenario.cfg 0 none Scenario.holding).2.state.connection
        = some 1 :=
  have h := (ping_connection_frame Scenario.envUp Scenario.cfg 0 none Scenario.holding).2.1 1 0
    rfl (Or.inl rfl)
  ⟨h.1, h.2.1, by decide⟩

/-- C8 does not hold as stated: run from a process without a handle on a
healthy server, `ping_connection` issues a `connect`, leaves a new handle and
registers a ping task. -/
theorem ping_connection_registers_and_connects :
    Scenario.fresh.tasks = [] ∧ Scenario.fresh.calls = []
    ∧ Scenario.fresh.state.connection = none
    ∧ (ping_connection Scenario.envUp Scenario.cfg 0 none Scenario.fresh).1 = Outcome.ret 0
    ∧ (ping_connection Scenario.envUp Scenario.cfg 0 none Scenario.fresh).2.tasks
        = [Scenario.pingTask]
    ∧ (ping_connection Scenario.envUp Scenario.cfg 0 none Scenario.fresh).2.calls
        = [DriverCall.connect "tcp://127.0.0.1:3306" "xi" "secret",
            DriverCall.setSchema 1 "xidb", DriverCall.isValid 1]
    ∧ (ping_connection Scenario.envUp Scenario.cfg 0 none Scenario.fresh).2.state.connection
        = some 1 := by
  decide

/-- C2 at a failing input: with connection 1 held, `isValid()` returning false
and `reconnect()` throwing, the exception leaves `db::detail::getState` and the
handle is still held; likewise when `isValid()` itself throws. -/
theorem getState_reconnect_exception_escapes :
    (getState Scenario.envReconnectThrows Scenario.cfg Scenario.holding).1
        = Outcome.threw "Lost connection to server"
    ∧ (getState Scenario.envReconnectThrows Scenario.cfg Scenario.holding).2.state.connection
        = some 1
    ∧ (getState Scenario.envDown Scenario.cfg Scenario.holding).1
        = Outcome.threw "Lost connection to server" := by
  decide

/-- C3 at two failing inputs: with no handle and an unreachable server
`db::queryStr` dereferences the null connection; with a held, valid connection
whose `createStatement` throws, the exception leaves `db::queryStr`. -/
theorem queryStr_faults_without_handle :
    (queryStr Scenario.envDown Scenario.cfg "SELECT 1" Scenario.fresh).1 = Outcome.nullDeref
    ∧ (queryStr Scenario.envNoStatement Scenario.cfg "SELECT 1" Scenario.holding).1
        = Outcome.threw "Out of memory" := by
  decide

/-- C7 at a failing input: with no handle and an unreachable server `getState`
returns leaving the handle absent, and `ping_connection` then dereferences the
null connection. -/
theorem ping_connection_faults_without_handle :
    (getState Scenario.envDown Scenario.cfg Scenario.fresh).1 = Outcome.ret ()
    ∧ (getState Scenario.envDown Scenario.cfg Scenario.fresh).2.state.connection = none
    ∧ (ping_connection Scenario.envDown Scenario.cfg 0 none Scenario.fresh).1
        = Outcome.nullDeref := by
  decide

/-- The only exceptions that leave `db::detail::getState` come from the
unguarded `isValid()` or `reconnect()` of a held handle; one thrown by
`connect` or `setSchema` never leaves it. -/
theorem getState_outcome (env : Env D) (cfg : Settings) (w : World D) :
    (getState env cfg w).1 = Outcome.ret ()
    ∨ ∃ h e, w.state.connection = some h ∧ (getState env cfg w).1 = Outcome.threw e
      ∧ ((∃ d, env.isValid h w.driver = (Except.error e, d))
        ∨ ∃ d0 d, env.isValid h w.driver = (Except.ok false, d0)
          ∧ env.reconnect h d0 = (Except.error e, d)) := by
  rcases hconn : w.state.connection with _ | h
  · left
    have hr : getStateReuse env w = (Outcome.ret false, w) := by
      simp [getStateReuse, hconn]
    exact (getState_of_reuse_false env cfg w w hr).1
  · rcases hv : env.isValid h w.driver with ⟨e | b, d1⟩
    · right
      refine ⟨h, e, rfl, ?_, Or.inl ⟨d1, hv⟩⟩
      simp [getState, getStateReuse, hconn, hv]
    · cases b
      · rcases hrc : env.reconnect h d1 with ⟨e | b, d2⟩
        · right
          refine ⟨h, e, rfl, ?_, Or.inr ⟨d1, d2, hv, hrc⟩⟩
          simp [getState, getStateReuse, hconn, hv, hrc]
        · left
          cases b
          · have hr : getStateReuse env w = (Outcome.ret false,
                (w.called (DriverCall.isValid h) d1).called (DriverCall.reconnect h) d2) := by
              simp [getStateReuse, hconn, hv, hrc]
            exact (getState_of_reuse_false env cfg w _ hr).1
          · simp [getState, getStateReuse, hconn, hv, hrc]
      · left
        simp [getState, getStateReuse, hconn, hv]

/-- Once `getState` has returned leaving a handle, `ping_connection` returns 0,
and an exception from its own `isValid()` or `reconnect()` is caught and wipes
the handle. -/
theorem ping_connection_with_handle (env : Env D) (cfg : Settings) (tick : Int)
    (task : Option CTask) (w w1 : World D) (u : Unit) (h : Handle)
    (hg : getState env cfg w = (Outcome.ret u, w1)) (hconn : w1.state.connection = some h) :
    (ping_connection env cfg tick task w).1 = Outcome.ret 0
    ∧ (∀ e d, env.isValid h w1.driver = (Except.error e, d) →
        (ping_connection env cfg tick task w).2.state.connection = none)
    ∧ (∀ e d0 d, env.isValid h w1.driver = (Except.ok false, d0) →
        env.reconnect h d0 = (Except.error e, d) →
        (ping_connection env cfg tick task w).2.state.connection = none) := by
  have hc2 : (w1.logged Severity.info
      "(C++) Pinging database to keep connection alive").state.connection = some h := hconn
  have hd2 : (w1.logged Severity.info
      "(C++) Pinging database to keep connection alive").driver = w1.driver := rfl
  refine ⟨?_, ?_, ?_⟩
  · rcases hv : env.isValid h w1.driver with ⟨e | b, d1⟩
    · simp [ping_connection, hg, hc2, hd2, hv]
    · cases b
      · rcases hrc : env.reconnect h d1 with ⟨e | b, d2⟩ <;>
          simp [ping_connection, hg, hc2, hd2, hv, hrc]
      · simp [ping_connection, hg, hc2, hd2, hv]
  · intro e d hv
    simp [ping_connection, hg, hc2, hd2, hv, World.setConnection]
  · intro e d0 d hv hrc
    simp [ping_connection, hg, hc2, hd2, hv, hrc, World.setConnection]

/-- Once `getState` has returned leaving a handle and `createStatement` has
returned, an exception from `executeQuery` makes `queryStr` return null, and a
result set makes it return the wrapper of that result set and the query. -/
theorem queryStr_after_createStatement (env : Env D) (cfg : Settings) (q : String)
    (w w1 : World D) (u : Unit) (h : Handle) (stmt : Stmt) (d1 : D)
    (hg : getState env cfg w = (Outcome.ret u, w1)) (hconn : w1.state.connection = some h)
    (hs : env.createStatement h w1.driver = (Except.ok stmt, d1)) :
    (∀ e d3, env.executeQuery stmt (cStr q) (env.hiresNow d1).2 = (Except.error e, d3) →
        (queryStr env cfg q w).1 = Outcome.ret none)
    ∧ (∀ rset d3, env.executeQuery stmt (cStr q) (env.hiresNow d1).2 = (Except.ok rset, d3) →
        (queryStr env cfg q w).1 = Outcome.ret (some (ResultSetWrapper.mk rset q))) := by
  refine ⟨?_, ?_⟩
  · intro e d3 hq
    simp [queryStr, hg, hconn, hs, hq]
  · intro rset d3 hq
    simp [queryStr, hg, hconn, hs, hq]

/-- A wrapper comes out of `queryStr` only from a successful `executeQuery`, and
it holds that result set and the query text. -/
theorem queryStr_wrapper_of_success (env : Env D) (cfg : Settings) (q : String) (w : World D)
    (wr : ResultSetWrapper) (h : (queryStr env cfg q w).1 = Outcome.ret (some wr)) :
    wr.query = q
    ∧ ∃ stmt d d1, env.executeQuery stmt (cStr q) d = (Except.ok wr.resultSet, d1) := by
  unfold queryStr at h
  split at h
  · simp at h
  · simp at h
  · split at h
    · simp at h
    · split at h
      · simp at h
      · dsimp only at h
        split at h
        · next rset d3 heq =>
          simp at h
          subst h
          exact ⟨rfl, _, _, _, heq⟩
        · simp at h

/-- Whenever `ping_connection` returns, it returns 0. -/
theorem ping_connection_returns_zero (env : Env D) (cfg : Settings) (tick : Int)
    (task : Option CTask) (w : World D) (v : Int)
    (h : (ping_connection env cfg tick task w).1 = Outcome.ret v) : v = 0 := by
  unfold ping_connection at h
  split at h
  · simp at h
  · simp at h
  · dsimp only at h
    split at h
    · simp at h
    · split at h
      · simp at h; exact h.symm
      · simp at h; exact h.symm
      · split at h <;> (simp at h; exact h.symm)

end StateProperties

end DooDooServer
